import Mathlib

set_option maxRecDepth 100000

/-!
Verification of the Gemini relay handlers and the channel health policy.

The definitions below are a shallow embedding of
`src/relay/channel/gemini/relay-gemini-native.go` and of the channel
health policy file (package `service`, `ShouldDisableChannel` and
friends).  Go structs become Lean structures, the streaming callback
becomes an explicit state-passing step function together with a runner
that stops when the callback returns `false`, and external collaborators
(the keyword search, the text-to-usage estimator, the empty-thought
predicate from package `dto`) are taken as parameters.
-/

namespace GeminiRelay

/-! ## Data model: the Gemini envelope (`dto.GeminiChatResponse`) -/

/-- Inline binary datum of a content part (`dto` inline data: media type). -/
structure GeminiInlineData where
  mimeType : String
deriving Repr, DecidableEq

/-- One content part: an optional text fragment and an optional inline datum. -/
structure GeminiPart where
  text : String
  inlineData : Option GeminiInlineData
deriving Repr, DecidableEq

/-- Candidate content: an ordered list of parts. -/
structure GeminiContent where
  parts : List GeminiPart
deriving Repr, DecidableEq

/-- One candidate output. -/
structure GeminiCandidate where
  content : GeminiContent
deriving Repr, DecidableEq

/-- One modality-tagged prompt-token detail entry. -/
structure GeminiUsageDetail where
  modality : String
  tokenCount : Nat
deriving Repr, DecidableEq

/-- The `usageMetadata` block of the envelope.  In Go a missing block is the
zero value of this struct; presence/absence of the raw JSON key is tracked
separately (see `RawUsageView`). -/
structure GeminiUsageMetadata where
  promptTokenCount : Nat
  candidatesTokenCount : Nat
  thoughtsTokenCount : Nat
  totalTokenCount : Nat
  promptTokensDetails : List GeminiUsageDetail
deriving Repr, DecidableEq

/-- Modelled from the spec: the safety-feedback block is "block flag +
reason"; the accessor `IsBlocked` of `dto.GeminiPromptFeedback` is not under
`src/`, so the flag is carried explicitly. -/
structure GeminiPromptFeedback where
  blocked : Bool
  blockReason : String
deriving Repr, DecidableEq

/-- Modelled from the spec: `IsBlocked` reports the safety-feedback block
flag. -/
def GeminiPromptFeedback.IsBlocked (pf : GeminiPromptFeedback) : Bool :=
  pf.blocked

/-- The provider envelope, whole response or stream chunk
(`dto.GeminiChatResponse`). -/
structure GeminiChatResponse where
  promptFeedback : GeminiPromptFeedback
  candidates : List GeminiCandidate
  usageMetadata : GeminiUsageMetadata
deriving Repr, DecidableEq

/-- Zero-valued usage metadata: what the Go typed parse yields when the raw
JSON has no `usageMetadata` key at all. -/
def GeminiUsageMetadata.zero : GeminiUsageMetadata :=
  { promptTokenCount := 0, candidatesTokenCount := 0, thoughtsTokenCount := 0,
    totalTokenCount := 0, promptTokensDetails := [] }

/-! ## Data model: the normalized usage record (`dto.Usage`) -/

/-- Completion-token detail bucket. -/
structure CompletionTokenDetails where
  reasoningTokens : Nat
deriving Repr, DecidableEq

/-- Per-modality prompt-token buckets. -/
structure PromptTokensDetails where
  audioTokens : Nat
  textTokens : Nat
deriving Repr, DecidableEq

/-- The gateway's normalized usage record (`dto.Usage`). -/
structure Usage where
  promptTokens : Nat
  completionTokens : Nat
  totalTokens : Nat
  completionTokenDetails : CompletionTokenDetails
  promptTokensDetails : PromptTokensDetails
deriving Repr, DecidableEq

/-- The Go zero value `dto.Usage{}`. -/
def Usage.zero : Usage :=
  { promptTokens := 0, completionTokens := 0, totalTokens := 0,
    completionTokenDetails := { reasoningTokens := 0 },
    promptTokensDetails := { audioTokens := 0, textTokens := 0 } }

/-! ## Data model: typed failures (`types.NewAPIError` as returned by the
handlers).  `types.NewOpenAIError(err, code, status)` carries no skip-retry
option; `types.NewErrorWithStatusCode(..., types.ErrOptionWithSkipRetry())`
sets the skip-retry flag (non-retryable). -/

/-- The error codes the two handlers produce. -/
inductive ErrorCode where
  | badResponseBody
  | contentFiltered
  | emptyResponse
deriving Repr, DecidableEq

/-- A typed failure as built by the handlers: error code, HTTP status code,
and whether the skip-retry option was attached. -/
structure HandlerError where
  code : ErrorCode
  statusCode : Nat
  skipRetry : Bool
deriving Repr, DecidableEq

/-! ## Channel health policy (package `service`)

`ShouldDisableChannel(channelType, err)` consults, in order: the global
auto-disable flag, nil-ness of the error, `types.IsChannelError`,
`types.IsSkipRetryError`, the HTTP status (401 always, 403 for the Gemini
channel type), the OpenAI-shaped error code and type, the Gemini-specific
exact-match of the permanent-quota message, and finally the keyword search
`AcSearch` over the lower-cased message.  The error's flags, code, type and
message are carried as fields; the keyword search (an external black box
over a configured keyword set) is a parameter. -/

/-- The classified upstream error handed to the policy
(`types.NewAPIError`): HTTP status, the two flags tested by
`types.IsChannelError` / `types.IsSkipRetryError`, the OpenAI-shaped
`Code` and `Type` of `ToOpenAIError()`, and `Error()`'s message text. -/
structure NewAPIError where
  statusCode : Nat
  channelErrorFlag : Bool
  skipRetryFlag : Bool
  oaiCode : String
  oaiType : String
  message : String
deriving Repr, DecidableEq

/-- `constant.ChannelTypeGemini` (a distinguished channel-type id; its
numeric value is irrelevant, only identity comparisons appear). -/
def ChannelTypeGemini : Nat := 25

/-- Models `strings.TrimSpace`: remove leading and trailing whitespace
characters from the text. -/
def trimSpace (s : String) : String :=
  ⟨((s.data.dropWhile Char.isWhitespace).reverse.dropWhile Char.isWhitespace).reverse⟩

/-- The canonical permanent-quota-exhaustion message matched exactly in
`ShouldDisableChannel`. -/
def geminiPermanentQuotaMsg : String :=
  "You exceeded your current quota, please check your plan and billing details. For more information on this error, head to: https://ai.google.dev/gemini-api/docs/rate-limits."

/-- `service.ShouldDisableChannel`.  `autoDisableEnabled` models the global
`common.AutomaticDisableChannelEnabled`; `acSearch` models
`AcSearch(·, operation_setting.AutomaticDisableKeywords, true)`. -/
def ShouldDisableChannel (autoDisableEnabled : Bool) (acSearch : String → Bool)
    (channelType : Nat) (err : Option NewAPIError) : Bool :=
  if !autoDisableEnabled then false
  else
    match err with
    | none => false
    | some e =>
      if e.channelErrorFlag then true
      else if e.skipRetryFlag then false
      else if e.statusCode == 401 then true
      else if e.statusCode == 403 && channelType == ChannelTypeGemini then true
      else if e.oaiCode == "invalid_api_key" || e.oaiCode == "account_deactivated"
          || e.oaiCode == "billing_not_active"
          || e.oaiCode == "pre_consume_token_quota_failed" then true
      else if e.oaiType == "insufficient_quota" || e.oaiType == "insufficient_user_quota"
          || e.oaiType == "authentication_error" || e.oaiType == "permission_error"
          || e.oaiType == "forbidden" then true
      else if channelType == ChannelTypeGemini
          && trimSpace e.message == geminiPermanentQuotaMsg then true
      else acSearch e.message.toLower

/-- `service.ShouldEnableChannel`: true only when auto-enable is globally on,
no error occurred, and the current status is exactly auto-disabled. -/
def ShouldEnableChannel (autoEnableEnabled : Bool) (err : Option NewAPIError)
    (status : Nat) (statusAutoDisabled : Nat) : Bool :=
  if !autoEnableEnabled then false
  else if err.isSome then false
  else if status != statusAutoDisabled then false
  else true

/-! ## Whole-response translator (`GeminiTextGenerationHandler`)

The handler reads the body, parses it as `dto.GeminiChatResponse`, checks
the safety block, builds the usage record, then re-parses the raw bytes
generically to test for the *presence* of `usageMetadata.candidatesTokenCount`
(distinguishing a missing key from a zero value), and finally forwards the
original body.  The body is modelled as its raw text together with the two
parse outcomes on it. -/

/-- Outcome of the generic `json.Unmarshal` re-parse, restricted to what the
handler inspects: did the re-parse fail; if it succeeded, is `usageMetadata`
present as an object, and if so does it contain the
`candidatesTokenCount` key. -/
inductive RawUsageView where
  | parseFailed
  | noUsageMetadata
  | usageMetadata (hasCandidatesTokenCount : Bool)
deriving Repr, DecidableEq

/-- A whole upstream response body: the raw bytes, the typed parse into the
envelope (`none` on unmarshal error), and the generic re-parse view. -/
structure ResponseBody where
  raw : String
  typed : Option GeminiChatResponse
  rawUsage : RawUsageView
deriving Repr, DecidableEq

/-- Result of the whole-response translator: on success the usage record and
the body forwarded downstream (byte-for-byte); on failure the typed error,
with nothing forwarded. -/
inductive WholeResult where
  | ok (usage : Usage) (forwardedBody : String)
  | fail (e : HandlerError)
deriving Repr, DecidableEq

/-- Usage computation of the whole handler (lines 53-67): completion =
candidates + thoughts, reasoning recorded alongside, modality details routed
into the audio/text buckets (unknown modalities ignored). -/
def computeUsage (um : GeminiUsageMetadata) : Usage :=
  { promptTokens := um.promptTokenCount,
    completionTokens := um.candidatesTokenCount + um.thoughtsTokenCount,
    totalTokens := um.totalTokenCount,
    completionTokenDetails := { reasoningTokens := um.thoughtsTokenCount },
    promptTokensDetails :=
      um.promptTokensDetails.foldl
        (fun acc detail =>
          if detail.modality == "AUDIO" then { acc with audioTokens := detail.tokenCount }
          else if detail.modality == "TEXT" then { acc with textTokens := detail.tokenCount }
          else acc)
        { audioTokens := 0, textTokens := 0 } }

/-- `GeminiTextGenerationHandler`: parse, block check, usage, raw
presence check, forward. -/
def GeminiTextGenerationHandler (body : ResponseBody) : WholeResult :=
  match body.typed with
  | none =>
      .fail { code := .badResponseBody, statusCode := 500, skipRetry := false }
  | some resp =>
      if resp.promptFeedback.IsBlocked then
        .fail { code := .contentFiltered, statusCode := 400, skipRetry := true }
      else
        let usage := computeUsage resp.usageMetadata
        match body.rawUsage with
        | .usageMetadata false =>
            .fail { code := .emptyResponse, statusCode := 400, skipRetry := true }
        | _ => .ok usage body.raw

/-! ## Stream translator (`GeminiTextGenerationStreamHandler`)

The scanner invokes the callback once per chunk with the raw chunk text; the
callback returns `true` to keep reading and `false` to stop (in-file
comments: "return false // 停止处理", "return true // 继续接收下一个消息块").
A chunk is modelled as its raw text plus its parse outcome.  The external
collaborators — the empty-thought predicate `dto.IsEmptyThoughtResponse` and
the text estimator `service.ResponseText2Usage` — are parameters. -/

/-- One item of the upstream event stream: the raw `data` string handed to
the callback, and the result of `common.UnmarshalJsonStr` on it (`none` on
unmarshal error). -/
structure StreamChunk where
  raw : String
  parsed : Option GeminiChatResponse
deriving Repr, DecidableEq

/-- The mutable per-session state of the stream handler: the running usage,
the image-part counter, the accumulated visible text, the one-chunk
lookahead buffer (`pendingData`, with the Go sentinel "" = empty, plus the
`isPendingEmptyThought` flag), the terminal block decision, the
sent-chunk counter (`info.SendResponseCount`), and the ordered list of
chunks forwarded to the client. -/
structure StreamState where
  usage : Usage
  imageCount : Nat
  responseText : String
  pendingData : String
  isPendingEmptyThought : Bool
  contentBlocked : Bool
  blockReason : String
  sendCount : Nat
  forwarded : List String
deriving Repr, DecidableEq

/-- Session state at stream start. -/
def StreamState.init : StreamState :=
  { usage := Usage.zero, imageCount := 0, responseText := "",
    pendingData := "", isPendingEmptyThought := false,
    contentBlocked := false, blockReason := "", sendCount := 0,
    forwarded := [] }

/-- The image-counting loop of lines 186-195: count inline-data parts with a
non-empty media type. -/
def countImages (n : Nat) (resp : GeminiChatResponse) : Nat :=
  resp.candidates.foldl
    (fun acc cand =>
      cand.content.parts.foldl
        (fun a part =>
          match part.inlineData with
          | some d => if d.mimeType != "" then a + 1 else a
          | none => a)
        acc)
    n

/-- The text-accumulation loop of lines 186-195: append each non-empty text
part to the visible-text builder, in order. -/
def appendText (s : String) (resp : GeminiChatResponse) : String :=
  resp.candidates.foldl
    (fun acc cand =>
      cand.content.parts.foldl
        (fun a part => if part.text != "" then a ++ part.text else a)
        acc)
    s

/-- The usage update of lines 198-210: when the chunk carries a non-zero
total, overwrite the running record with the chunk's cumulative snapshot
(modality buckets are only overwritten for modalities the chunk reports). -/
def streamUpdateUsage (u : Usage) (um : GeminiUsageMetadata) : Usage :=
  if um.totalTokenCount == 0 then u
  else
    let u1 : Usage :=
      { u with
        promptTokens := um.promptTokenCount,
        completionTokens := um.candidatesTokenCount + um.thoughtsTokenCount,
        totalTokens := um.totalTokenCount,
        completionTokenDetails := { reasoningTokens := um.thoughtsTokenCount } }
    um.promptTokensDetails.foldl
      (fun acc d =>
        if d.modality == "AUDIO" then
          { acc with promptTokensDetails :=
              { acc.promptTokensDetails with audioTokens := d.tokenCount } }
        else if d.modality == "TEXT" then
          { acc with promptTokensDetails :=
              { acc.promptTokensDetails with textTokens := d.tokenCount } }
        else acc)
      u1

/-- The stream callback (lines 141-219) on one chunk.  Returns the updated
state and the callback's boolean: `false` stops the scanner.  `isET` is
`dto.IsEmptyThoughtResponse`. -/
def processChunk (isET : GeminiChatResponse → Bool) (st : StreamState)
    (ch : StreamChunk) : StreamState × Bool :=
  match ch.parsed with
  | none => (st, false)
  | some resp =>
    if resp.promptFeedback.IsBlocked && st.isPendingEmptyThought then
      ({ st with contentBlocked := true,
                 blockReason := resp.promptFeedback.blockReason }, false)
    else if st.sendCount == 0 && st.pendingData == "" && isET resp then
      ({ st with pendingData := ch.raw, isPendingEmptyThought := true }, true)
    else
      let st1 :=
        if st.pendingData != "" then
          { st with forwarded := st.forwarded ++ [st.pendingData],
                    sendCount := st.sendCount + 1,
                    pendingData := "", isPendingEmptyThought := false }
        else st
      let st2 :=
        { st1 with imageCount := countImages st1.imageCount resp,
                   responseText := appendText st1.responseText resp,
                   usage := streamUpdateUsage st1.usage resp.usageMetadata }
      ({ st2 with forwarded := st2.forwarded ++ [ch.raw],
                  sendCount := st2.sendCount + 1 }, true)

/-- `helper.StreamScannerHandler`'s loop: feed chunks to the callback in
order, stopping as soon as it returns `false`. -/
def runChunks (isET : GeminiChatResponse → Bool) (st : StreamState) :
    List StreamChunk → StreamState
  | [] => st
  | ch :: rest =>
      let r := processChunk isET st ch
      if r.2 then runChunks isET r.1 rest else r.1

/-- Result of the stream translator: the chunks forwarded to the client in
order, and either the final usage record or the typed failure. -/
structure StreamOutcome where
  forwarded : List String
  result : Except HandlerError Usage
deriving Repr

/-- The post-stream resolution of lines 221-264 applied to the final session
state: terminal block, flush of a still-pending chunk, empty-stream check,
image-based completion estimate, and the text-estimator fallback
(`respText2Usage` models `service.ResponseText2Usage`, applied to the
visible text, the upstream model name and the prompt-token count). -/
def resolveStream (respText2Usage : String → String → Nat → Usage)
    (upstreamModelName : String) (promptTokens : Nat)
    (st : StreamState) : StreamOutcome :=
  if st.contentBlocked then
    { forwarded := st.forwarded,
      result := .error { code := .contentFiltered, statusCode := 400, skipRetry := true } }
  else
    let st :=
      if st.pendingData != "" then
        { st with forwarded := st.forwarded ++ [st.pendingData],
                  sendCount := st.sendCount + 1 }
      else st
    if st.sendCount == 0 then
      { forwarded := st.forwarded,
        result := .error { code := .emptyResponse, statusCode := 500, skipRetry := false } }
    else
      let usage :=
        if st.imageCount != 0 && st.usage.completionTokens == 0 then
          { st.usage with completionTokens := st.imageCount * 258 }
        else st.usage
      let usage :=
        if usage.completionTokens == 0 then
          if st.responseText.length > 0 then
            respText2Usage st.responseText upstreamModelName promptTokens
          else Usage.zero
        else usage
      { forwarded := st.forwarded, result := .ok usage }

/-- `GeminiTextGenerationStreamHandler`: run the scanner loop from the
initial session state, then resolve. -/
def GeminiTextGenerationStreamHandler (isET : GeminiChatResponse → Bool)
    (respText2Usage : String → String → Nat → Usage)
    (upstreamModelName : String) (promptTokens : Nat)
    (chunks : List StreamChunk) : StreamOutcome :=
  resolveStream respText2Usage upstreamModelName promptTokens
    (runChunks isET StreamState.init chunks)

/-! ## Theorems about the channel health policy -/

/-- C2: for the Gemini channel family, the provider-specific quota override
fires only on an exact, full (whitespace-trimmed) match of the canonical
permanent-quota-exhaustion message: such a message yields `true`, while any
message whose trimmed text differs (e.g. the canonical text with an appended
metric-specific suffix) does not match the override and the decision falls
through to the generic keyword path — in particular it is `false` whenever
the keyword search does not fire. -/
theorem C2_gemini_exact_quota_match (acSearch : String → Bool) (e : NewAPIError)
    (hflag : e.channelErrorFlag = false) (hskip : e.skipRetryFlag = false)
    (h401 : e.statusCode ≠ 401) (h403 : e.statusCode ≠ 403)
    (hc1 : e.oaiCode ≠ "invalid_api_key") (hc2 : e.oaiCode ≠ "account_deactivated")
    (hc3 : e.oaiCode ≠ "billing_not_active")
    (hc4 : e.oaiCode ≠ "pre_consume_token_quota_failed")
    (ht1 : e.oaiType ≠ "insufficient_quota") (ht2 : e.oaiType ≠ "insufficient_user_quota")
    (ht3 : e.oaiType ≠ "authentication_error") (ht4 : e.oaiType ≠ "permission_error")
    (ht5 : e.oaiType ≠ "forbidden") :
    (trimSpace e.message = geminiPermanentQuotaMsg →
      ShouldDisableChannel true acSearch ChannelTypeGemini (some e) = true)
    ∧ (trimSpace e.message ≠ geminiPermanentQuotaMsg →
      ShouldDisableChannel true acSearch ChannelTypeGemini (some e)
        = acSearch e.message.toLower) := by
  constructor <;> intro hmsg <;>
    simp [ShouldDisableChannel, hflag, hskip, h401, h403, hc1, hc2, hc3, hc4,
      ht1, ht2, ht3, ht4, ht5, hmsg]

/-- The transient Gemini rate-limit message: the canonical text with an
appended metric-specific suffix. -/
def geminiTransientQuotaMsg : String :=
  geminiPermanentQuotaMsg ++
    "\n* Quota exceeded for metric: generativelanguage.googleapis.com/generate_content_free_tier_requests"

/-- Witness for C2: with a keyword set that does not fire, the exact
canonical message disables the channel and the metric-suffixed transient
variant does not. -/
theorem C2_gemini_exact_quota_match_witness :
    ShouldDisableChannel true (fun _ => false) ChannelTypeGemini
      (some { statusCode := 429, channelErrorFlag := false, skipRetryFlag := false,
              oaiCode := "rate_limit", oaiType := "tokens",
              message := geminiPermanentQuotaMsg }) = true
    ∧ ShouldDisableChannel true (fun _ => false) ChannelTypeGemini
      (some { statusCode := 429, channelErrorFlag := false, skipRetryFlag := false,
              oaiCode := "rate_limit", oaiType := "tokens",
              message := geminiTransientQuotaMsg }) = false := by
  constructor
  · exact (C2_gemini_exact_quota_match (fun _ => false)
      { statusCode := 429, channelErrorFlag := false, skipRetryFlag := false,
        oaiCode := "rate_limit", oaiType := "tokens",
        message := geminiPermanentQuotaMsg }
      rfl rfl (by decide) (by decide) (by decide) (by decide) (by decide)
      (by decide) (by decide) (by decide) (by decide) (by decide) (by decide)).1
      (by decide)
  · exact ((C2_gemini_exact_quota_match (fun _ => false)
      { statusCode := 429, channelErrorFlag := false, skipRetryFlag := false,
        oaiCode := "rate_limit", oaiType := "tokens",
        message := geminiTransientQuotaMsg }
      rfl rfl (by decide) (by decide) (by decide) (by decide) (by decide)
      (by decide) (by decide) (by decide) (by decide) (by decide) (by decide)).2
      (by decide)).trans rfl

/-- C7 as stated is false: the skip-retry check precedes the 401 check, so a
non-nil HTTP-401 error flagged skip-retry (and not flagged as a channel
error) yields `false` even with automatic disabling on. -/
theorem C7_counterexample :
    ShouldDisableChannel true (fun _ => false) ChannelTypeGemini
      (some { statusCode := 401, channelErrorFlag := false, skipRetryFlag := true,
              oaiCode := "", oaiType := "", message := "unauthorized" }) = false := by
  rfl

/-- C7 (amended): with automatic disabling on and the error flagged neither
channel-error nor skip-retry, HTTP 401 yields `true` regardless of channel
type; the HTTP-403 status rule yields `true` only for the Gemini channel
type — for any other channel type a 403 falls through to the code, type and
keyword paths. -/
theorem C7_amended_status_codes (acSearch : String → Bool) (ct : Nat) (e : NewAPIError)
    (hflag : e.channelErrorFlag = false) (hskip : e.skipRetryFlag = false) :
    (e.statusCode = 401 → ShouldDisableChannel true acSearch ct (some e) = true)
    ∧ (e.statusCode = 403 →
      ShouldDisableChannel true acSearch ChannelTypeGemini (some e) = true)
    ∧ (e.statusCode = 403 → ct ≠ ChannelTypeGemini →
      e.oaiCode ≠ "invalid_api_key" → e.oaiCode ≠ "account_deactivated" →
      e.oaiCode ≠ "billing_not_active" → e.oaiCode ≠ "pre_consume_token_quota_failed" →
      e.oaiType ≠ "insufficient_quota" → e.oaiType ≠ "insufficient_user_quota" →
      e.oaiType ≠ "authentication_error" → e.oaiType ≠ "permission_error" →
      e.oaiType ≠ "forbidden" →
      ShouldDisableChannel true acSearch ct (some e) = acSearch e.message.toLower) := by
  refine ⟨fun h401 => ?_, fun h403 => ?_, fun h403 hct hc1 hc2 hc3 hc4 ht1 ht2 ht3 ht4 ht5 => ?_⟩
  · simp [ShouldDisableChannel, hflag, hskip, h401]
  · simp [ShouldDisableChannel, hflag, hskip, h403]
  · simp [ShouldDisableChannel, hflag, hskip, h403, hct, hc1, hc2, hc3, hc4,
      ht1, ht2, ht3, ht4, ht5]

/-- Witness for C7 (amended): a 401 error disables a non-Gemini channel, a
403 error disables a Gemini channel, and with a non-firing keyword set a 403
error does not disable a non-Gemini channel. -/
theorem C7_amended_status_codes_witness :
    ShouldDisableChannel true (fun _ => false) 1
      (some { statusCode := 401, channelErrorFlag := false, skipRetryFlag := false,
              oaiCode := "", oaiType := "", message := "unauthorized" }) = true
    ∧ ShouldDisableChannel true (fun _ => false) ChannelTypeGemini
      (some { statusCode := 403, channelErrorFlag := false, skipRetryFlag := false,
              oaiCode := "", oaiType := "", message := "forbidden by upstream" }) = true
    ∧ ShouldDisableChannel true (fun _ => false) 1
      (some { statusCode := 403, channelErrorFlag := false, skipRetryFlag := false,
              oaiCode := "", oaiType := "", message := "forbidden by upstream" }) = false := by
  refine ⟨?_, ?_, ?_⟩
  · exact (C7_amended_status_codes (fun _ => false) 1
      { statusCode := 401, channelErrorFlag := false, skipRetryFlag := false,
        oaiCode := "", oaiType := "", message := "unauthorized" } rfl rfl).1 rfl
  · exact (C7_amended_status_codes (fun _ => false) ChannelTypeGemini
      { statusCode := 403, channelErrorFlag := false, skipRetryFlag := false,
        oaiCode := "", oaiType := "", message := "forbidden by upstream" } rfl rfl).2.1 rfl
  · exact ((C7_amended_status_codes (fun _ => false) 1
      { statusCode := 403, channelErrorFlag := false, skipRetryFlag := false,
        oaiCode := "", oaiType := "", message := "forbidden by upstream" } rfl rfl).2.2
      rfl (by decide) (by decide) (by decide) (by decide) (by decide) (by decide)
      (by decide) (by decide) (by decide) (by decide)).trans rfl

/-- C10: the intrinsic-channel-error check precedes the skip-retry check, so
an error carrying both flags (with automatic disabling on) yields `true`:
the channel-error flag takes precedence over the skip-retry exemption. -/
theorem C10_channel_error_precedes_skip_retry (acSearch : String → Bool)
    (ct : Nat) (e : NewAPIError)
    (hc : e.channelErrorFlag = true) (hs : e.skipRetryFlag = true) :
    ShouldDisableChannel true acSearch ct (some e) = true := by
  simp [ShouldDisableChannel, hc]

/-- Witness for C10: a concrete error flagged both channel-error and
skip-retry is disabled. -/
theorem C10_channel_error_precedes_skip_retry_witness :
    ShouldDisableChannel true (fun _ => false) 1
      (some { statusCode := 500, channelErrorFlag := true, skipRetryFlag := true,
              oaiCode := "", oaiType := "", message := "bad key" }) = true :=
  C10_channel_error_precedes_skip_retry (fun _ => false) 1
    { statusCode := 500, channelErrorFlag := true, skipRetryFlag := true,
      oaiCode := "", oaiType := "", message := "bad key" } rfl rfl

/-! ## Theorems about the whole-response translator -/

/-- C5: every parseable whole response whose safety feedback signals a block
fails with `ContentFiltered`, HTTP 400, marked skip-retry (non-retryable);
the result is a failure, so nothing is forwarded downstream. -/
theorem C5_whole_blocked_content_filtered (body : ResponseBody)
    (resp : GeminiChatResponse) (ht : body.typed = some resp)
    (hb : resp.promptFeedback.IsBlocked = true) :
    GeminiTextGenerationHandler body =
      .fail { code := .contentFiltered, statusCode := 400, skipRetry := true } := by
  simp [GeminiTextGenerationHandler, ht, hb]

/-- Witness for C5: a concrete blocked whole response is rejected as
`ContentFiltered`. -/
theorem C5_whole_blocked_content_filtered_witness :
    GeminiTextGenerationHandler
      { raw := "raw-body",
        typed := some
          { promptFeedback := { blocked := true, blockReason := "SAFETY" },
            candidates := [], usageMetadata := GeminiUsageMetadata.zero },
        rawUsage := .noUsageMetadata } =
      .fail { code := .contentFiltered, statusCode := 400, skipRetry := true } :=
  C5_whole_blocked_content_filtered
    { raw := "raw-body",
      typed := some
        { promptFeedback := { blocked := true, blockReason := "SAFETY" },
          candidates := [], usageMetadata := GeminiUsageMetadata.zero },
      rawUsage := .noUsageMetadata }
    { promptFeedback := { blocked := true, blockReason := "SAFETY" },
      candidates := [], usageMetadata := GeminiUsageMetadata.zero }
    rfl rfl

/-- C4: every parseable, non-blocked whole response whose raw JSON has a
`usageMetadata` object lacking the `candidatesTokenCount` key fails with
`EmptyResponse`, HTTP 400 (client fault), marked skip-retry
(non-retryable). -/
theorem C4_whole_missing_candidates_empty (body : ResponseBody)
    (resp : GeminiChatResponse) (ht : body.typed = some resp)
    (hb : resp.promptFeedback.IsBlocked = false)
    (hr : body.rawUsage = .usageMetadata false) :
    GeminiTextGenerationHandler body =
      .fail { code := .emptyResponse, statusCode := 400, skipRetry := true } := by
  simp [GeminiTextGenerationHandler, ht, hb, hr]

/-- Witness for C4: a concrete response with a usage block lacking
`candidatesTokenCount` is rejected as `EmptyResponse`. -/
theorem C4_whole_missing_candidates_empty_witness :
    GeminiTextGenerationHandler
      { raw := "raw-body",
        typed := some
          { promptFeedback := { blocked := false, blockReason := "" },
            candidates := [],
            usageMetadata :=
              { promptTokenCount := 7, candidatesTokenCount := 0,
                thoughtsTokenCount := 0, totalTokenCount := 7,
                promptTokensDetails := [] } },
        rawUsage := .usageMetadata false } =
      .fail { code := .emptyResponse, statusCode := 400, skipRetry := true } :=
  C4_whole_missing_candidates_empty
    { raw := "raw-body",
      typed := some
        { promptFeedback := { blocked := false, blockReason := "" },
          candidates := [],
          usageMetadata :=
            { promptTokenCount := 7, candidatesTokenCount := 0,
              thoughtsTokenCount := 0, totalTokenCount := 7,
              promptTokensDetails := [] } },
      rawUsage := .usageMetadata false }
    { promptFeedback := { blocked := false, blockReason := "" },
      candidates := [],
      usageMetadata :=
        { promptTokenCount := 7, candidatesTokenCount := 0,
          thoughtsTokenCount := 0, totalTokenCount := 7,
          promptTokensDetails := [] } }
    rfl rfl rfl

/-- C9: the `EmptyResponse` guard fires only when the raw JSON has a
`usageMetadata` key; a parseable, non-blocked whole response whose raw JSON
has no such key (so the typed parse sees the zero-valued usage block)
succeeds, forwards the body unchanged, and reports the all-zero usage
record. -/
theorem C9_whole_no_usage_metadata_ok (body : ResponseBody)
    (resp : GeminiChatResponse) (ht : body.typed = some resp)
    (hb : resp.promptFeedback.IsBlocked = false)
    (hr : body.rawUsage = .noUsageMetadata)
    (hum : resp.usageMetadata = GeminiUsageMetadata.zero) :
    GeminiTextGenerationHandler body = .ok Usage.zero body.raw := by
  simp [GeminiTextGenerationHandler, ht, hb, hr, hum]
  decide

/-- Witness for C9: a concrete non-blocked response with no `usageMetadata`
key succeeds with the all-zero usage record and forwards the raw body. -/
theorem C9_whole_no_usage_metadata_ok_witness :
    GeminiTextGenerationHandler
      { raw := "raw-body",
        typed := some
          { promptFeedback := { blocked := false, blockReason := "" },
            candidates :=
              [{ content := { parts := [{ text := "hi", inlineData := none }] } }],
            usageMetadata := GeminiUsageMetadata.zero },
        rawUsage := .noUsageMetadata } = .ok Usage.zero "raw-body" :=
  C9_whole_no_usage_metadata_ok
    { raw := "raw-body",
      typed := some
        { promptFeedback := { blocked := false, blockReason := "" },
          candidates :=
            [{ content := { parts := [{ text := "hi", inlineData := none }] } }],
          usageMetadata := GeminiUsageMetadata.zero },
      rawUsage := .noUsageMetadata }
    { promptFeedback := { blocked := false, blockReason := "" },
      candidates :=
        [{ content := { parts := [{ text := "hi", inlineData := none }] } }],
      usageMetadata := GeminiUsageMetadata.zero }
    rfl rfl rfl rfl

/-! ## Concrete sample values used by stream witnesses -/

/-- A concrete instance of the empty-thought predicate used in witnesses:
`dto.IsEmptyThoughtResponse` is external, so the stream theorems hold for
every predicate; witnesses pick this one. -/
def emptyThoughtProbe : GeminiChatResponse → Bool := fun r => r.candidates.isEmpty

/-- A concrete instance of the external text estimator
`service.ResponseText2Usage` used in witnesses. -/
def zeroUsageEstimator : String → String → Nat → Usage := fun _ _ _ => Usage.zero

/-- A chunk with no candidates: `emptyThoughtProbe` holds on it. -/
def sampleEmptyThoughtChunk : GeminiChatResponse :=
  { promptFeedback := { blocked := false, blockReason := "" },
    candidates := [], usageMetadata := GeminiUsageMetadata.zero }

/-- A chunk whose safety feedback signals a block. -/
def sampleBlockedChunk : GeminiChatResponse :=
  { promptFeedback := { blocked := true, blockReason := "SAFETY" },
    candidates := [], usageMetadata := GeminiUsageMetadata.zero }

/-- A normal content chunk with one text part. -/
def sampleTextChunk : GeminiChatResponse :=
  { promptFeedback := { blocked := false, blockReason := "" },
    candidates := [{ content := { parts := [{ text := "hello", inlineData := none }] } }],
    usageMetadata := GeminiUsageMetadata.zero }

/-- A chunk carrying three inline image parts and no reported usage. -/
def sampleImageChunk : GeminiChatResponse :=
  { promptFeedback := { blocked := false, blockReason := "" },
    candidates := [{ content := { parts :=
      [{ text := "", inlineData := some { mimeType := "image/png" } },
       { text := "", inlineData := some { mimeType := "image/png" } },
       { text := "", inlineData := some { mimeType := "image/png" } }] } }],
    usageMetadata := GeminiUsageMetadata.zero }

/-! ## Invariant: image parts are only counted on forwarded chunks -/

/-- One callback step preserves the invariant that a nonzero image count
entails a nonzero sent count (images are only counted in the branch that
also forwards the chunk). -/
theorem processChunk_image_sent (isET : GeminiChatResponse → Bool)
    (st : StreamState) (ch : StreamChunk)
    (h : st.imageCount ≠ 0 → st.sendCount ≠ 0) :
    (processChunk isET st ch).1.imageCount ≠ 0 →
      (processChunk isET st ch).1.sendCount ≠ 0 := by
  unfold processChunk
  cases hp : ch.parsed with
  | none => simpa using h
  | some resp =>
    by_cases h1 : (resp.promptFeedback.IsBlocked && st.isPendingEmptyThought) = true
    · simpa [h1] using h
    · by_cases h2 : (st.sendCount == 0 && st.pendingData == "" && isET resp) = true
      · simpa [h1, h2] using h
      · simp [h1, h2]

/-- The scanner loop preserves the image-count/sent-count invariant. -/
theorem runChunks_image_sent (isET : GeminiChatResponse → Bool)
    (chunks : List StreamChunk) (st : StreamState)
    (h : st.imageCount ≠ 0 → st.sendCount ≠ 0) :
    (runChunks isET st chunks).imageCount ≠ 0 →
      (runChunks isET st chunks).sendCount ≠ 0 := by
  induction chunks generalizing st with
  | nil => simpa [runChunks] using h
  | cons ch rest ih =>
    cases hc : (processChunk isET st ch).2 with
    | true =>
        simpa [runChunks, hc] using ih _ (processChunk_image_sent isET st ch h)
    | false =>
        simpa [runChunks, hc] using processChunk_image_sent isET st ch h

/-! ## Theorems about the stream translator -/

/-- C1: the one-chunk lookahead state machine.  (i) An empty-reasoning first
chunk followed by a blocked chunk forwards nothing and the session resolves
to `ContentFiltered`; (ii) an empty-reasoning first chunk followed by a
normal chunk forwards exactly the first chunk then the second, in that
order; (iii) a normal first chunk is forwarded immediately by its own
callback step, with the stream left flowing. -/
theorem C1_stream_lookahead (isET : GeminiChatResponse → Bool)
    (rt2u : String → String → Nat → Usage) (m : String) (pt : Nat)
    (cE cB cN cF : GeminiChatResponse) (rE rB rN rF : String)
    (hET : isET cE = true) (hEb : cE.promptFeedback.IsBlocked = false)
    (hBb : cB.promptFeedback.IsBlocked = true)
    (hNb : cN.promptFeedback.IsBlocked = false)
    (hFET : isET cF = false) (hFb : cF.promptFeedback.IsBlocked = false)
    (hrE : rE ≠ "") :
    ((GeminiTextGenerationStreamHandler isET rt2u m pt
        [⟨rE, some cE⟩, ⟨rB, some cB⟩]).forwarded = []
      ∧ (GeminiTextGenerationStreamHandler isET rt2u m pt
        [⟨rE, some cE⟩, ⟨rB, some cB⟩]).result
          = .error { code := .contentFiltered, statusCode := 400, skipRetry := true })
    ∧ (GeminiTextGenerationStreamHandler isET rt2u m pt
        [⟨rE, some cE⟩, ⟨rN, some cN⟩]).forwarded = [rE, rN]
    ∧ ((processChunk isET StreamState.init ⟨rF, some cF⟩).1.forwarded = [rF]
      ∧ (processChunk isET StreamState.init ⟨rF, some cF⟩).2 = true) := by
  refine ⟨⟨?_, ?_⟩, ?_, ?_, ?_⟩ <;>
    simp [GeminiTextGenerationStreamHandler, runChunks, processChunk, resolveStream,
      StreamState.init, hET, hEb, hBb, hNb, hFET, hFb, hrE]

/-- Witness for C1: concrete two-chunk streams exercising all three
lookahead scenarios. -/
theorem C1_stream_lookahead_witness :
    ((GeminiTextGenerationStreamHandler emptyThoughtProbe zeroUsageEstimator "gemini-pro" 5
        [⟨"chunk1", some sampleEmptyThoughtChunk⟩, ⟨"chunk2", some sampleBlockedChunk⟩]).forwarded = []
      ∧ (GeminiTextGenerationStreamHandler emptyThoughtProbe zeroUsageEstimator "gemini-pro" 5
        [⟨"chunk1", some sampleEmptyThoughtChunk⟩, ⟨"chunk2", some sampleBlockedChunk⟩]).result
          = .error { code := .contentFiltered, statusCode := 400, skipRetry := true })
    ∧ (GeminiTextGenerationStreamHandler emptyThoughtProbe zeroUsageEstimator "gemini-pro" 5
        [⟨"chunk1", some sampleEmptyThoughtChunk⟩, ⟨"chunk2", some sampleTextChunk⟩]).forwarded
          = ["chunk1", "chunk2"]
    ∧ ((processChunk emptyThoughtProbe StreamState.init
          ⟨"chunk1", some sampleTextChunk⟩).1.forwarded = ["chunk1"]
      ∧ (processChunk emptyThoughtProbe StreamState.init
          ⟨"chunk1", some sampleTextChunk⟩).2 = true) :=
  C1_stream_lookahead emptyThoughtProbe zeroUsageEstimator "gemini-pro" 5
    sampleEmptyThoughtChunk sampleBlockedChunk sampleTextChunk sampleTextChunk
    "chunk1" "chunk2" "chunk2" "chunk1"
    (by decide) (by decide) (by decide) (by decide) (by decide) (by decide) (by decide)

/-- C3 as stated is false: a malformed chunk makes the callback return
`false`, which stops the scanner — the subsequent well-formed chunk is never
processed or forwarded, and the session then fails with `EmptyResponse`
because nothing was sent. -/
theorem C3_counterexample :
    (GeminiTextGenerationStreamHandler emptyThoughtProbe zeroUsageEstimator "gemini-pro" 5
      [⟨"not-json", none⟩, ⟨"chunk2", some sampleTextChunk⟩]).forwarded = []
    ∧ (GeminiTextGenerationStreamHandler emptyThoughtProbe zeroUsageEstimator "gemini-pro" 5
      [⟨"not-json", none⟩, ⟨"chunk2", some sampleTextChunk⟩]).result
        = .error { code := .emptyResponse, statusCode := 500, skipRetry := false } :=
  ⟨rfl, rfl⟩

/-- C3 (amended): a chunk whose payload fails to parse is dropped — the
session state is unchanged, so no failure is recorded from the chunk itself
— but the scanner stops reading further chunks and the handler proceeds
directly to post-stream resolution with whatever was accumulated. -/
theorem C3_amended_malformed_stops_scan (isET : GeminiChatResponse → Bool)
    (st : StreamState) (r : String) (rest : List StreamChunk) :
    runChunks isET st (⟨r, none⟩ :: rest) = st := by
  simp [runChunks, processChunk]

/-- C6: a stream session that ends not blocked, with nothing pending and
zero chunks forwarded, fails with `EmptyResponse` at HTTP 500 (server
fault) without the skip-retry mark (retryable) — in contrast to the
whole-response `EmptyResponse`, which is HTTP 400 (client fault) with the
skip-retry mark (non-retryable). -/
theorem C6_stream_empty_server_fault (isET : GeminiChatResponse → Bool)
    (rt2u : String → String → Nat → Usage) (m : String) (pt : Nat)
    (chunks : List StreamChunk)
    (hb : (runChunks isET StreamState.init chunks).contentBlocked = false)
    (hp : (runChunks isET StreamState.init chunks).pendingData = "")
    (hs : (runChunks isET StreamState.init chunks).sendCount = 0)
    (body : ResponseBody) (resp : GeminiChatResponse)
    (ht : body.typed = some resp) (hrb : resp.promptFeedback.IsBlocked = false)
    (hru : body.rawUsage = .usageMetadata false) :
    (GeminiTextGenerationStreamHandler isET rt2u m pt chunks).result
      = .error { code := .emptyResponse, statusCode := 500, skipRetry := false }
    ∧ GeminiTextGenerationHandler body
      = .fail { code := .emptyResponse, statusCode := 400, skipRetry := true } := by
  constructor
  · simp [GeminiTextGenerationStreamHandler, resolveStream, hb, hp, hs]
  · simp [GeminiTextGenerationHandler, ht, hrb, hru]

/-- Witness for C6: the empty stream yields the retryable server-fault
`EmptyResponse`, while a whole response lacking `candidatesTokenCount`
yields the non-retryable client-fault one. -/
theorem C6_stream_empty_server_fault_witness :
    (GeminiTextGenerationStreamHandler emptyThoughtProbe zeroUsageEstimator "gemini-pro" 5
      []).result
      = .error { code := .emptyResponse, statusCode := 500, skipRetry := false }
    ∧ GeminiTextGenerationHandler
      { raw := "whole-body",
        typed := some sampleTextChunk,
        rawUsage := .usageMetadata false }
      = .fail { code := .emptyResponse, statusCode := 400, skipRetry := true } :=
  C6_stream_empty_server_fault emptyThoughtProbe zeroUsageEstimator "gemini-pro" 5 []
    rfl rfl rfl
    { raw := "whole-body", typed := some sampleTextChunk,
      rawUsage := .usageMetadata false }
    sampleTextChunk rfl rfl rfl

/-- C8: in a non-blocked session, if image parts were counted and the
provider-reported completion-token count is zero at stream end, the handler
synthesizes `completionTokens = imageCount * 258` (so three images give
774), and the synthesis is applied only when the reported value is zero —
a nonzero reported count is returned unchanged. -/
theorem C8_image_completion_synthesis (isET : GeminiChatResponse → Bool)
    (rt2u : String → String → Nat → Usage) (m : String) (pt : Nat)
    (chunks : List StreamChunk)
    (hb : (runChunks isET StreamState.init chunks).contentBlocked = false) :
    ((runChunks isET StreamState.init chunks).imageCount ≠ 0 →
      (runChunks isET StreamState.init chunks).usage.completionTokens = 0 →
      (GeminiTextGenerationStreamHandler isET rt2u m pt chunks).result
        = .ok { (runChunks isET StreamState.init chunks).usage with
                completionTokens := (runChunks isET StreamState.init chunks).imageCount * 258 })
    ∧ ((runChunks isET StreamState.init chunks).imageCount = 3 →
      (runChunks isET StreamState.init chunks).usage.completionTokens = 0 →
      (GeminiTextGenerationStreamHandler isET rt2u m pt chunks).result
        = .ok { (runChunks isET StreamState.init chunks).usage with
                completionTokens := 774 })
    ∧ ((runChunks isET StreamState.init chunks).sendCount ≠ 0 →
      (runChunks isET StreamState.init chunks).usage.completionTokens ≠ 0 →
      (GeminiTextGenerationStreamHandler isET rt2u m pt chunks).result
        = .ok (runChunks isET StreamState.init chunks).usage) := by
  have hinv := runChunks_image_sent isET chunks StreamState.init
    (by simp [StreamState.init])
  have main : (runChunks isET StreamState.init chunks).imageCount ≠ 0 →
      (runChunks isET StreamState.init chunks).usage.completionTokens = 0 →
      (GeminiTextGenerationStreamHandler isET rt2u m pt chunks).result
        = .ok { (runChunks isET StreamState.init chunks).usage with
                completionTokens := (runChunks isET StreamState.init chunks).imageCount * 258 } := by
    intro him hc0
    have hsc := hinv him
    by_cases hpd : (runChunks isET StreamState.init chunks).pendingData = ""
    · simp [GeminiTextGenerationStreamHandler, resolveStream, hb, hpd, hsc, him, hc0]
    · simp [GeminiTextGenerationStreamHandler, resolveStream, hb, hpd, hsc, him, hc0]
  refine ⟨main, fun h3 hc0 => ?_, fun hs hcn => ?_⟩
  · have h := main (by rw [h3]; decide) hc0
    rw [h3] at h
    simpa using h
  · by_cases hpd : (runChunks isET StreamState.init chunks).pendingData = ""
    · simp [GeminiTextGenerationStreamHandler, resolveStream, hb, hpd, hs, hcn]
    · simp [GeminiTextGenerationStreamHandler, resolveStream, hb, hpd, hs, hcn]

/-- Witness for C8: a single chunk with three inline image parts and no
reported usage yields a synthesized completion-token count of 774. -/
theorem C8_image_completion_synthesis_witness :
    (GeminiTextGenerationStreamHandler emptyThoughtProbe zeroUsageEstimator "gemini-pro" 5
      [⟨"img-chunk", some sampleImageChunk⟩]).result
      = .ok { Usage.zero with completionTokens := 774 } :=
  ((C8_image_completion_synthesis emptyThoughtProbe zeroUsageEstimator "gemini-pro" 5
      [⟨"img-chunk", some sampleImageChunk⟩] rfl).2.1 rfl rfl).trans rfl

end GeminiRelay
